import Mathlib

/-!
Verification of lib/stream-ssl.c: a nonblocking TLS stream adapter.

The shallow embedding below follows the source file. Calls into the
OpenSSL library (SSL_read, SSL_write, SSL_connect/SSL_accept,
SSL_get_state, SSL_get_error, errno, ERR_get_error) are modelled as
oracle records describing what one library call returned; the
surrounding control flow, state updates and error mapping are
translated statement by statement from the C code.
-/

namespace StreamSsl

/- Linux errno values used by the source. -/
def ENOENT : Nat := 2
def EIO_val : Nat := 5
def EAGAIN : Nat := 11
def EPIPE : Nat := 32
def EPROTO : Nat := 71
def ENOPROTOOPT : Nat := 92

/- OpenSSL verification-mode bits. -/
def SSL_VERIFY_NONE : Nat := 0
def SSL_VERIFY_PEER : Nat := 1

/- Values stored in rx_want / tx_want (OpenSSL SSL_NOTHING etc.). -/
inductive ssl_want
  | SSL_NOTHING
  | SSL_READING
  | SSL_WRITING
deriving DecidableEq

/- enum ssl_state from the source (connection phase). -/
inductive ssl_state
  | STATE_TCP_CONNECTING
  | STATE_SSL_CONNECTING
deriving DecidableEq

/- enum session_type from the source. -/
inductive session_type
  | CLIENT
  | SERVER
deriving DecidableEq

/- The classification returned by SSL_get_error. -/
inductive ssl_error_kind
  | errNone
  | zeroReturn
  | wantRead
  | wantWrite
  | wantConnect
  | wantAccept
  | wantX509Lookup
  | syscall
  | errSSL
  | badCode
deriving DecidableEq

/- Oracle for one SSL_read or SSL_write call: the return value; the
SSL_get_error classification of it; the SSL_get_state value observed
after the call; errno as it stands when SSL_ERROR_SYSCALL is reported;
and the head of the OpenSSL error queue (ERR_get_error, 0 = empty). -/
structure ssl_call where
  ret : Int
  err : ssl_error_kind
  post : Nat
  errnoV : Nat
  queued : Nat
deriving DecidableEq

/- struct ssl_stream.  The socket fd and the SSL handle itself are not
represented; ssl_st holds the SSL_get_state abstraction of the session
and txbuf the contents of the pending ofpbuf (none = null pointer). -/
structure ssl_stream where
  state : ssl_state
  type : session_type
  txbuf : Option (List Nat)
  rx_want : ssl_want
  tx_want : ssl_want
  ssl_st : Nat
deriving DecidableEq

/- interpret_ssl_error from the source, minus logging.  Returns the
status code and the final value of *want (set to SSL_NOTHING on entry,
then to SSL_READING / SSL_WRITING for the two WANT cases). -/
def interpret_ssl_error (ret : Int) (error : ssl_error_kind)
    (errnoV queued : Nat) : Nat × ssl_want :=
  match error with
  | ssl_error_kind.wantRead => (EAGAIN, ssl_want.SSL_READING)
  | ssl_error_kind.wantWrite => (EAGAIN, ssl_want.SSL_WRITING)
  | ssl_error_kind.syscall =>
      if queued = 0 then
        if ret < 0 then (errnoV, ssl_want.SSL_NOTHING)
        else (EPROTO, ssl_want.SSL_NOTHING)
      else (EIO_val, ssl_want.SSL_NOTHING)
  | _ => (EIO_val, ssl_want.SSL_NOTHING)

/- ssl_recv from the source.  'r' is the oracle for the one SSL_read
call performed; 'n' is the requested byte count.  The C code asserts
n > 0; a violated assertion is modelled as the result none. -/
def ssl_recv (s : ssl_stream) (r : ssl_call) (n : Nat) :
    Option (Int × ssl_stream) :=
  if n = 0 then none
  else
    let s1 : ssl_stream :=
      { s with
        ssl_st := r.post,
        tx_want := if s.ssl_st ≠ r.post then ssl_want.SSL_NOTHING
                   else s.tx_want,
        rx_want := ssl_want.SSL_NOTHING }
    if 0 < r.ret then some (r.ret, s1)
    else if r.err = ssl_error_kind.zeroReturn then some (0, s1)
    else
      let p := interpret_ssl_error r.ret r.err r.errnoV r.queued
      some ((p.1 : Int), { s1 with rx_want := p.2 })

/- ssl_clear_txbuf from the source (ofpbuf_delete + null the field). -/
def ssl_clear_txbuf (s : ssl_stream) : ssl_stream :=
  { s with txbuf := none }

/- Outcome of one iteration of the ssl_do_tx loop: either the loop
continues, or the function returns the given status. -/
inductive tx_step
  | again
  | done (v : Nat)
deriving DecidableEq

/- One iteration of the for-loop in ssl_do_tx: one SSL_write call on
the pending buffer, the want-tracker update, and either an
ofpbuf_pull and loop-continuation decision or a status return.
Dereferencing a null txbuf is modelled as none. -/
def ssl_tx_once (s : ssl_stream) (r : ssl_call) :
    Option (ssl_stream × tx_step) :=
  match s.txbuf with
  | none => none
  | some b =>
    let s1 : ssl_stream :=
      { s with
        ssl_st := r.post,
        rx_want := if s.ssl_st ≠ r.post then ssl_want.SSL_NOTHING
                   else s.rx_want,
        tx_want := ssl_want.SSL_NOTHING }
    if 0 < r.ret then
      let b2 := b.drop r.ret.toNat
      let s2 := { s1 with txbuf := some b2 }
      if b2 = [] then some (s2, tx_step.done 0) else some (s2, tx_step.again)
    else if r.err = ssl_error_kind.zeroReturn then
      some (s1, tx_step.done EPIPE)
    else
      let p := interpret_ssl_error r.ret r.err r.errnoV r.queued
      some ({ s1 with tx_want := p.2 }, tx_step.done p.1)

/- ssl_do_tx from the source: iterate SSL_write until the buffer
drains or a status is returned.  'ol' supplies one oracle record per
SSL_write call; an exhausted oracle is modelled as none. -/
def ssl_do_tx (s : ssl_stream) : List ssl_call → Option (Nat × ssl_stream)
  | [] => none
  | r :: rest =>
    match ssl_tx_once s r with
    | none => none
    | some (s1, tx_step.done v) => some (v, s1)
    | some (s1, tx_step.again) => ssl_do_tx s1 rest

/- ssl_send from the source: backpressure when txbuf is occupied,
otherwise clone the caller's bytes (ofpbuf_clone_data) and run
ssl_do_tx, classifying its status. -/
def ssl_send (s : ssl_stream) (buffer : List Nat) (ol : List ssl_call) :
    Option (Nat × ssl_stream) :=
  match s.txbuf with
  | some _ => some (EAGAIN, s)
  | none =>
    let s0 := { s with txbuf := some buffer }
    match ssl_do_tx s0 ol with
    | none => none
    | some (v, s1) =>
      if v = 0 then some (0, ssl_clear_txbuf s1)
      else if v = EAGAIN then some (0, s1)
      else some (v, { s1 with txbuf := none })

/- ssl_run from the source: flush the pending buffer if any; release
it unless the flush still wants I/O. -/
def ssl_run (s : ssl_stream) (ol : List ssl_call) : Option ssl_stream :=
  match s.txbuf with
  | none => some s
  | some _ =>
    match ssl_do_tx s ol with
    | none => none
    | some (v, s1) => if v ≠ EAGAIN then some (ssl_clear_txbuf s1) else some s1

/- The module-level configuration flags of the source file
(has_private_key, has_certificate, has_ca_cert, bootstrap_ca_cert).
The ca_cert_file path string carries no logic and is omitted. -/
structure ssl_cfg where
  has_private_key : Bool
  has_certificate : Bool
  has_ca_cert : Bool
  bootstrap_ca_cert : Bool
deriving DecidableEq

/- The unconfigured starting state of the four flags. -/
def init_cfg : ssl_cfg :=
  { has_private_key := false, has_certificate := false,
    has_ca_cert := false, bootstrap_ca_cert := false }

/- Oracle for one run of do_ca_cert_bootstrap: the peer certificate
chain (certificates as opaque numbers); the X509_check_issued result
for the last chain element against itself (0 = self-issued); the errno
of a failed open/fdopen/fclose (none = the call succeeded); whether
PEM_write_X509 and SSL_CTX_load_verify_locations succeeded. -/
structure bootstrap_env where
  chain : List Nat
  check_issued : Nat
  open_errno : Option Nat
  fdopen_errno : Option Nat
  pem_write_ok : Bool
  fclose_errno : Option Nat
  load_verify_ok : Bool
deriving DecidableEq

/- do_ca_cert_bootstrap from the source, returning the status and the
updated configuration flags. -/
def do_ca_cert_bootstrap (g : ssl_cfg) (e : bootstrap_env) : Nat × ssl_cfg :=
  if e.chain = [] then (EPROTO, g)
  else if e.check_issued ≠ 0 then (EPROTO, g)
  else
    match e.open_errno with
    | some er => (er, g)
    | none =>
      match e.fdopen_errno with
      | some er => (er, g)
      | none =>
        if e.pem_write_ok = false then (EIO_val, g)
        else
          match e.fclose_errno with
          | some er => (er, g)
          | none =>
            let g1 := { g with bootstrap_ca_cert := false,
                               has_ca_cert := true }
            if e.load_verify_ok = false then (EPROTO, g1)
            else (EPROTO, g1)

/- Oracle for one ssl_connect call: the check_connection_completion
result, the SSL_connect / SSL_accept return value with its
SSL_get_error classification, and the SSL_get_verify_mode of the
session. -/
structure connect_call where
  completion : Nat
  ret : Int
  err : ssl_error_kind
  verify_mode : Nat
deriving DecidableEq

/- ssl_wants_io from the source. -/
def ssl_wants_io (e : ssl_error_kind) : Bool :=
  e = ssl_error_kind.wantWrite || e = ssl_error_kind.wantRead

/- The STATE_SSL_CONNECTING body of ssl_connect.  Returns the status,
the updated stream and the updated configuration flags. -/
def ssl_connect_hs (g : ssl_cfg) (s : ssl_stream) (c : connect_call)
    (b : bootstrap_env) : Nat × ssl_stream × ssl_cfg :=
  if c.ret ≠ 1 then
    if c.ret < 0 ∧ ssl_wants_io c.err = true then (EAGAIN, s, g)
    else (EPROTO, s, g)
  else if g.bootstrap_ca_cert then
    let r := do_ca_cert_bootstrap g b
    (r.1, s, r.2)
  else if c.verify_mode &&& (SSL_VERIFY_NONE ||| SSL_VERIFY_PEER)
          ≠ SSL_VERIFY_PEER then
    (EPROTO, s, g)
  else (0, s, g)

/- ssl_connect from the source: probe TCP completion in
STATE_TCP_CONNECTING, fall through into the handshake on success. -/
def ssl_connect (g : ssl_cfg) (s : ssl_stream) (c : connect_call)
    (b : bootstrap_env) : Nat × ssl_stream × ssl_cfg :=
  match s.state with
  | ssl_state.STATE_TCP_CONNECTING =>
    if c.completion ≠ 0 then (c.completion, s, g)
    else ssl_connect_hs g
      { s with state := ssl_state.STATE_SSL_CONNECTING } c b
  | ssl_state.STATE_SSL_CONNECTING => ssl_connect_hs g s c b

/- The out-parameters and return value of read_cert_file, plus the
list of certificates passed to X509_free on the failure path. -/
structure cert_read_result where
  ret : Nat
  certs : Option (List Nat)
  n_certs : Nat
  freed : List Nat
deriving DecidableEq

/- The read loop of read_cert_file.  'items' lists the successive
PEM_read_X509 results the file produces (some c = a parsed
certificate, none = a parse failure); a certificate that is the last
item is followed by end-of-file, which ends the loop. -/
def read_cert_loop : List (Option Nat) → List Nat → cert_read_result
  | [], acc =>
    { ret := EIO_val, certs := none, n_certs := 0, freed := acc }
  | none :: _, acc =>
    { ret := EIO_val, certs := none, n_certs := 0, freed := acc }
  | some c :: rest, acc =>
    if rest = [] then
      { ret := 0, certs := some (acc ++ [c]),
        n_certs := (acc ++ [c]).length, freed := [] }
    else read_cert_loop rest (acc ++ [c])

/- read_cert_file from the source: fopen, then the parse loop. -/
def read_cert_file (fopen_errno : Option Nat)
    (items : List (Option Nat)) : cert_read_result :=
  match fopen_errno with
  | some er => { ret := er, certs := none, n_certs := 0, freed := [] }
  | none => read_cert_loop items []

/- Oracle for one stream_ssl_set_ca_cert_file call: whether ssl_init
succeeded; the bootstrap argument; the errno of a failed stat (none =
the file exists); the fopen/parse behavior of the file handed to
read_cert_file; whether SSL_CTX_load_verify_locations succeeded. -/
structure ca_setter_call where
  ssl_init_ok : Bool
  bootstrap : Bool
  stat_errno : Option Nat
  fopen_errno : Option Nat
  items : List (Option Nat)
  load_verify_ok : Bool
deriving DecidableEq

/- stream_ssl_set_ca_cert_file from the source, reduced to its effect
on the configuration flags. -/
def stream_ssl_set_ca_cert_file (g : ssl_cfg) (c : ca_setter_call) :
    ssl_cfg :=
  if c.ssl_init_ok = false then g
  else if c.bootstrap = true ∧ c.stat_errno = some ENOENT then
    { g with bootstrap_ca_cert := true }
  else if (read_cert_file c.fopen_errno c.items).ret = 0 then
    if c.load_verify_ok = false then g
    else { g with has_ca_cert := true }
  else g

/- Events that mutate the configuration flags: a call to the CA-cert
setter, or a client handshake completing (ssl_connect reaching
SSL_connect = 1), which runs do_ca_cert_bootstrap when and only when
bootstrap mode is armed. -/
inductive cfg_event
  | set_ca (c : ca_setter_call)
  | handshake_done (e : bootstrap_env)

def is_set_ca : cfg_event → Bool
  | cfg_event.set_ca _ => true
  | cfg_event.handshake_done _ => false

def cfg_step (g : ssl_cfg) : cfg_event → ssl_cfg
  | cfg_event.set_ca c => stream_ssl_set_ca_cert_file g c
  | cfg_event.handshake_done e =>
    if g.bootstrap_ca_cert then (do_ca_cert_bootstrap g e).2 else g

def run_cfg : ssl_cfg → List cfg_event → ssl_cfg
  | g, [] => g
  | g, ev :: rest => run_cfg (cfg_step g ev) rest

/- stream_ssl_is_configured from the source. -/
def stream_ssl_is_configured (g : ssl_cfg) : Bool :=
  g.has_private_key || g.has_certificate || g.has_ca_cert

/- The configuration-check prologue of new_ssl_stream: retval is made
ENOPROTOOPT by a missing private key, a missing certificate, a missing
CA certificate with bootstrap unarmed, or a key/certificate mismatch
(SSL_CTX_check_private_key). -/
def new_ssl_stream_cfg_error (g : ssl_cfg) (key_matches_cert : Bool) :
    Nat :=
  if !g.has_private_key || !g.has_certificate
     || (!g.has_ca_cert && !g.bootstrap_ca_cert)
     || !key_matches_cert then ENOPROTOOPT
  else 0

/- pssl_open from the source.  'bound' is the (port, address) pair the
listening socket is actually bound to; 'stack_sin' is the content of
the local variable sin, which inet_open_passive never writes because
the call passes NULL for its sockaddr out-parameter.  The returned
pair is the (port, address) printed into bound_name. -/
set_option linter.unusedVariables false in
def pssl_open (ssl_init_ret : Nat) (open_fd : Int)
    (bound stack_sin : Nat × Nat) : Except Nat (Nat × Nat) :=
  if ssl_init_ret ≠ 0 then Except.error ssl_init_ret
  else if open_fd < 0 then Except.error (-open_fd).toNat
  else Except.ok stack_sin

/- The want value recorded for the calling direction by one SSL_read
or SSL_write attempt, as a function of the library call's result
alone. -/
def want_after (r : ssl_call) : ssl_want :=
  if 0 < r.ret then ssl_want.SSL_NOTHING
  else if r.err = ssl_error_kind.zeroReturn then ssl_want.SSL_NOTHING
  else (interpret_ssl_error r.ret r.err r.errnoV r.queued).2

/-- Claim C1: on an established stream, ssl_recv sets rx_want to a value
determined by the SSL_read result alone (nothing, or the direction the
library reports) and resets tx_want to nothing exactly when the SSL
session state changed across the call; symmetrically every SSL_write
attempt inside ssl_do_tx sets tx_want from the SSL_write result alone
and resets rx_want to nothing exactly when the session state changed. -/
theorem C1_want_tracking (s : ssl_stream) (r : ssl_call) (n : Nat)
    (h : 0 < n) :
    (∃ v s2, ssl_recv s r n = some (v, s2) ∧
       s2.rx_want = want_after r ∧
       s2.tx_want = (if s.ssl_st ≠ r.post then ssl_want.SSL_NOTHING
                     else s.tx_want)) ∧
    (∀ (t : ssl_stream) (b : List Nat) (q : ssl_call), t.txbuf = some b →
       ∃ u, ssl_tx_once t q = some u ∧
         u.1.tx_want = want_after q ∧
         u.1.rx_want = (if t.ssl_st ≠ q.post then ssl_want.SSL_NOTHING
                        else t.rx_want)) := by
  constructor
  · unfold ssl_recv want_after
    rw [if_neg (by omega : ¬ n = 0)]
    by_cases h1 : 0 < r.ret
    · simp only [if_pos h1]
      exact ⟨r.ret, _, rfl, rfl, rfl⟩
    · simp only [if_neg h1]
      by_cases h2 : r.err = ssl_error_kind.zeroReturn
      · simp only [if_pos h2]
        exact ⟨0, _, rfl, rfl, rfl⟩
      · simp only [if_neg h2]
        exact ⟨_, _, rfl, rfl, rfl⟩
  · intro t b q htx
    unfold ssl_tx_once want_after
    rw [htx]
    by_cases h1 : 0 < q.ret
    · simp only [if_pos h1]
      by_cases h2 : b.drop q.ret.toNat = []
      · simp only [if_pos h2]
        exact ⟨_, rfl, rfl, rfl⟩
      · simp only [if_neg h2]
        exact ⟨_, rfl, rfl, rfl⟩
    · simp only [if_neg h1]
      by_cases h2 : q.err = ssl_error_kind.zeroReturn
      · simp only [if_pos h2]
        exact ⟨_, rfl, rfl, rfl⟩
      · simp only [if_neg h2]
        exact ⟨_, rfl, rfl, rfl⟩

/-- Claim C8: a recv needs a strictly positive byte count: at n = 0 the
assertion in ssl_recv fires (modelled as the result none), and whenever
0 < n the call never reaches the assertion failure. -/
theorem C8_recv_needs_positive (s : ssl_stream) (r : ssl_call) (n : Nat) :
    ssl_recv s r 0 = none ∧ (0 < n → ssl_recv s r n ≠ none) := by
  constructor
  · rfl
  · intro h
    unfold ssl_recv
    rw [if_neg (by omega : ¬ n = 0)]
    by_cases h1 : 0 < r.ret
    · simp [h1]
    · by_cases h2 : r.err = ssl_error_kind.zeroReturn <;> simp [h1, h2]

/-- Claim C5: while a payload is already buffered, ssl_send returns
EAGAIN with the stream completely unchanged — the caller's bytes are
not copied and no second payload can come into existence. -/
theorem C5_single_outbound_payload (s : ssl_stream) (b buffer : List Nat)
    (ol : List ssl_call) (h : s.txbuf = some b) :
    ssl_send s buffer ol = some (EAGAIN, s) := by
  unfold ssl_send
  rw [h]

/- interpret_ssl_error never reports status 0 when errno is nonzero,
matching the C contract that a failed syscall sets errno. -/
theorem interpret_ssl_error_ne_zero (ret : Int) (error : ssl_error_kind)
    (errnoV queued : Nat) (h : errnoV ≠ 0) :
    (interpret_ssl_error ret error errnoV queued).1 ≠ 0 := by
  unfold interpret_ssl_error
  cases error <;>
    first
    | (simp only []
       split
       · split
         · simpa using h
         · simp [EPROTO]
       · simp [EIO_val])
    | simp [EAGAIN, EIO_val]

/- Across a whole ssl_do_tx run started on a nonempty buffer: a
returned status 0 means the buffer fully drained, and a returned
EAGAIN means a nonempty remainder is still buffered. -/
theorem ssl_do_tx_txbuf (ol : List ssl_call) :
    ∀ (s s2 : ssl_stream) (v : Nat) (b : List Nat),
    s.txbuf = some b → b ≠ [] →
    (∀ r ∈ ol, r.errnoV ≠ 0) →
    ssl_do_tx s ol = some (v, s2) →
    (v = 0 → s2.txbuf = some ([] : List Nat)) ∧
    (v = EAGAIN → ∃ b2, s2.txbuf = some b2 ∧ b2 ≠ []) := by
  induction ol with
  | nil =>
    intro s s2 v b hb hne herr h
    simp [ssl_do_tx] at h
  | cons r rest ih =>
    intro s s2 v b hb hne herr h
    unfold ssl_do_tx ssl_tx_once at h
    rw [hb] at h
    simp only [] at h
    by_cases h1 : 0 < r.ret
    · rw [if_pos h1] at h
      by_cases h2 : b.drop r.ret.toNat = []
      · rw [if_pos h2] at h
        simp only [] at h
        obtain ⟨hv, hs⟩ := Prod.mk.injEq .. ▸ Option.some.injEq .. ▸ h
        constructor
        · intro _
          rw [← hs, h2]
        · intro hva
          rw [← hv] at hva
          exact absurd hva (by decide)
      · rw [if_neg h2] at h
        simp only [] at h
        exact ih _ s2 v _ rfl h2 (fun q hq => herr q (List.mem_cons_of_mem r hq)) h
    · rw [if_neg h1] at h
      by_cases h2 : r.err = ssl_error_kind.zeroReturn
      · rw [if_pos h2] at h
        simp only [] at h
        obtain ⟨hv, hs⟩ := Prod.mk.injEq .. ▸ Option.some.injEq .. ▸ h
        constructor
        · intro hv0
          rw [← hv] at hv0
          exact absurd hv0 (by decide)
        · intro hva
          rw [← hv] at hva
          exact absurd hva (by decide)
      · rw [if_neg h2] at h
        simp only [] at h
        obtain ⟨hv, hs⟩ := Prod.mk.injEq .. ▸ Option.some.injEq .. ▸ h
        constructor
        · intro hv0
          rw [← hv] at hv0
          exact absurd hv0
            (interpret_ssl_error_ne_zero r.ret r.err r.errnoV r.queued
              (herr r (List.mem_cons_self r rest)))
        · intro _
          exact ⟨b, by rw [← hs], hne⟩

/-- Claim C6: with no payload buffered, ssl_send clones the caller's
bytes and loops them through SSL_write, with exactly four outcomes:
status 0 → buffer fully drained, released, success returned; status
EAGAIN (library wants I/O) → nonempty remainder retained, success
returned; status EPIPE (clean TLS close during write) → buffer
released, EPIPE returned; any other status → buffer released, that
status returned. -/
theorem C6_send_outcomes (s : ssl_stream) (buffer : List Nat)
    (ol : List ssl_call) (v : Nat) (s2 : ssl_stream)
    (hempty : s.txbuf = none) (hne : buffer ≠ [])
    (herr : ∀ r ∈ ol, r.errnoV ≠ 0)
    (h : ssl_send s buffer ol = some (v, s2)) :
    ∃ v1 s1, ssl_do_tx { s with txbuf := some buffer } ol = some (v1, s1) ∧
      ((v1 = 0 ∧ v = 0 ∧ s1.txbuf = some ([] : List Nat) ∧
          s2.txbuf = none) ∨
       (v1 = EAGAIN ∧ v = 0 ∧ s2 = s1 ∧
          ∃ b2, s2.txbuf = some b2 ∧ b2 ≠ []) ∨
       (v1 ≠ 0 ∧ v1 ≠ EAGAIN ∧ v = v1 ∧ s2.txbuf = none)) := by
  unfold ssl_send at h
  rw [hempty] at h
  simp only [] at h
  cases hdo : ssl_do_tx { s with txbuf := some buffer } ol with
  | none => rw [hdo] at h; exact absurd h (by simp)
  | some p =>
    obtain ⟨v1, s1⟩ := p
    rw [hdo] at h
    simp only [] at h
    have key := ssl_do_tx_txbuf ol _ s1 v1 buffer rfl hne herr hdo
    refine ⟨v1, s1, rfl, ?_⟩
    by_cases hv0 : v1 = 0
    · rw [if_pos hv0] at h
      obtain ⟨hv, hs⟩ := Prod.mk.injEq .. ▸ Option.some.injEq .. ▸ h
      exact Or.inl ⟨hv0, hv.symm, key.1 hv0, by rw [← hs]; rfl⟩
    · rw [if_neg hv0] at h
      by_cases hva : v1 = EAGAIN
      · rw [if_pos hva] at h
        obtain ⟨hv, hs⟩ := Prod.mk.injEq .. ▸ Option.some.injEq .. ▸ h
        exact Or.inr (Or.inl ⟨hva, hv.symm, hs.symm, hs ▸ key.2 hva⟩)
      · rw [if_neg hva] at h
        obtain ⟨hv, hs⟩ := Prod.mk.injEq .. ▸ Option.some.injEq .. ▸ h
        exact Or.inr (Or.inr ⟨hv0, hva, hv.symm, by rw [← hs]⟩)

/- do_ca_cert_bootstrap never returns status 0, provided every failing
file operation reports a nonzero errno. -/
theorem do_ca_cert_bootstrap_ne_zero (g : ssl_cfg) (e : bootstrap_env)
    (h1 : ∀ k, e.open_errno = some k → k ≠ 0)
    (h2 : ∀ k, e.fdopen_errno = some k → k ≠ 0)
    (h3 : ∀ k, e.fclose_errno = some k → k ≠ 0) :
    (do_ca_cert_bootstrap g e).1 ≠ 0 := by
  unfold do_ca_cert_bootstrap
  by_cases hc : e.chain = []
  · simp [hc, EPROTO]
  · rw [if_neg hc]
    by_cases hi : e.check_issued ≠ 0
    · simp [hi, EPROTO]
    · rw [if_neg hi]
      cases ho : e.open_errno with
      | some k => simpa using h1 k ho
      | none =>
        cases hf : e.fdopen_errno with
        | some k => simpa using h2 k hf
        | none =>
          by_cases hp : e.pem_write_ok = false
          · simp [hp, EIO_val]
          · rw [if_neg hp]
            cases hcl : e.fclose_errno with
            | some k => simpa using h3 k hcl
            | none =>
              by_cases hl : e.load_verify_ok = false <;>
                simp [hl, EPROTO]

/- On the all-steps-succeed path, do_ca_cert_bootstrap returns EPROTO
and flips the two configuration flags. -/
theorem do_ca_cert_bootstrap_success (g : ssl_cfg) (e : bootstrap_env)
    (hchain : e.chain ≠ []) (hci : e.check_issued = 0)
    (ho : e.open_errno = none) (hf : e.fdopen_errno = none)
    (hp : e.pem_write_ok = true) (hcl : e.fclose_errno = none) :
    do_ca_cert_bootstrap g e =
      (EPROTO, { g with bootstrap_ca_cert := false,
                        has_ca_cert := true }) := by
  unfold do_ca_cert_bootstrap
  rw [if_neg hchain, if_neg (by omega : ¬ e.check_issued ≠ 0), ho, hf,
    if_neg (by simp [hp] : ¬ e.pem_write_ok = false), hcl]
  by_cases hl : e.load_verify_ok = false <;> simp [hl]

/- In phase STATE_SSL_CONNECTING, ssl_connect is its handshake body. -/
theorem ssl_connect_at_hs (g : ssl_cfg) (s : ssl_stream)
    (c : connect_call) (b : bootstrap_env)
    (hs : s.state = ssl_state.STATE_SSL_CONNECTING) :
    ssl_connect g s c b = ssl_connect_hs g s c b := by
  unfold ssl_connect
  rw [hs]

/-- Claim C3: every run of do_ca_cert_bootstrap returns a nonzero
error; on the all-success path (chain present, last certificate
self-signed, file exclusively created, written and closed) it returns
EPROTO; hence a client handshake completing with bootstrap armed never
makes ssl_connect return 0. -/
theorem C3_bootstrap_always_fails (g : ssl_cfg) (e : bootstrap_env)
    (h1 : ∀ k, e.open_errno = some k → k ≠ 0)
    (h2 : ∀ k, e.fdopen_errno = some k → k ≠ 0)
    (h3 : ∀ k, e.fclose_errno = some k → k ≠ 0) :
    (do_ca_cert_bootstrap g e).1 ≠ 0 ∧
    (e.chain ≠ [] → e.check_issued = 0 → e.open_errno = none →
       e.fdopen_errno = none → e.pem_write_ok = true →
       e.fclose_errno = none → (do_ca_cert_bootstrap g e).1 = EPROTO) ∧
    (∀ (s : ssl_stream) (c : connect_call),
       g.bootstrap_ca_cert = true →
       s.state = ssl_state.STATE_SSL_CONNECTING →
       (ssl_connect g s c e).1 ≠ 0) := by
  refine ⟨do_ca_cert_bootstrap_ne_zero g e h1 h2 h3, ?_, ?_⟩
  · intro hchain hci ho hf hp hcl
    rw [do_ca_cert_bootstrap_success g e hchain hci ho hf hp hcl]
  · intro s c hb hs
    rw [ssl_connect_at_hs g s c e hs]
    unfold ssl_connect_hs
    by_cases hr : c.ret ≠ 1
    · rw [if_pos hr]
      by_cases hw : c.ret < 0 ∧ ssl_wants_io c.err = true
      · rw [if_pos hw]
        simp [EAGAIN]
      · rw [if_neg hw]
        simp [EPROTO]
    · rw [if_neg hr, hb]
      simpa using do_ca_cert_bootstrap_ne_zero g e h1 h2 h3

/-- Claim C2: ssl_connect returns 0 only when the handshake succeeded
and the session's verification mode still requires peer verification;
a handshake that completes with verification relaxed while bootstrap
mode has been disarmed (by a concurrent bootstrap winner) is rejected
with EPROTO rather than established. -/
theorem C2_established_only_verified (g : ssl_cfg) (s : ssl_stream)
    (c : connect_call) (b : bootstrap_env)
    (h1 : ∀ k, b.open_errno = some k → k ≠ 0)
    (h2 : ∀ k, b.fdopen_errno = some k → k ≠ 0)
    (h3 : ∀ k, b.fclose_errno = some k → k ≠ 0) :
    ((ssl_connect g s c b).1 = 0 →
       c.ret = 1 ∧
       c.verify_mode &&& (SSL_VERIFY_NONE ||| SSL_VERIFY_PEER)
         = SSL_VERIFY_PEER) ∧
    (c.ret = 1 → g.bootstrap_ca_cert = false →
       c.verify_mode &&& (SSL_VERIFY_NONE ||| SSL_VERIFY_PEER)
         ≠ SSL_VERIFY_PEER →
       s.state = ssl_state.STATE_SSL_CONNECTING →
       (ssl_connect g s c b).1 = EPROTO) := by
  have hs_only : ∀ t : ssl_stream, (ssl_connect_hs g t c b).1 = 0 →
      c.ret = 1 ∧
      c.verify_mode &&& (SSL_VERIFY_NONE ||| SSL_VERIFY_PEER)
        = SSL_VERIFY_PEER := by
    intro t h0
    unfold ssl_connect_hs at h0
    by_cases hr : c.ret ≠ 1
    · rw [if_pos hr] at h0
      by_cases hw : c.ret < 0 ∧ ssl_wants_io c.err = true
      · rw [if_pos hw] at h0
        simp [EAGAIN] at h0
      · rw [if_neg hw] at h0
        simp [EPROTO] at h0
    · rw [if_neg hr] at h0
      by_cases hb : g.bootstrap_ca_cert = true
      · rw [if_pos hb] at h0
        exact absurd h0 (do_ca_cert_bootstrap_ne_zero g b h1 h2 h3)
      · rw [if_neg hb] at h0
        by_cases hm : c.verify_mode &&& (SSL_VERIFY_NONE ||| SSL_VERIFY_PEER)
            ≠ SSL_VERIFY_PEER
        · rw [if_pos hm] at h0
          simp [EPROTO] at h0
        · exact ⟨by omega, not_not.mp hm⟩
  constructor
  · intro h0
    cases hst : s.state with
    | STATE_TCP_CONNECTING =>
      unfold ssl_connect at h0
      rw [hst] at h0
      by_cases hcomp : c.completion ≠ 0
      · rw [if_pos hcomp] at h0
        exact absurd h0 hcomp
      · rw [if_neg hcomp] at h0
        exact hs_only _ h0
    | STATE_SSL_CONNECTING =>
      unfold ssl_connect at h0
      rw [hst] at h0
      exact hs_only s h0
  · intro hr hb hm hst
    rw [ssl_connect_at_hs g s c b hst]
    unfold ssl_connect_hs
    rw [if_neg (by omega : ¬ c.ret ≠ 1), hb,
      if_neg Bool.false_ne_true, if_pos hm]

/- One call to stream_ssl_set_ca_cert_file leaves at least one of the
two CA flags untouched. -/
theorem set_ca_cert_changes_at_most_one (g : ssl_cfg)
    (c : ca_setter_call) :
    (stream_ssl_set_ca_cert_file g c).has_ca_cert = g.has_ca_cert ∨
    (stream_ssl_set_ca_cert_file g c).bootstrap_ca_cert
      = g.bootstrap_ca_cert := by
  unfold stream_ssl_set_ca_cert_file
  split_ifs <;> simp

/- From a state with both CA flags false, one setter call cannot make
both true. -/
theorem set_ca_cert_from_clean (g : ssl_cfg) (c : ca_setter_call)
    (hh : g.has_ca_cert = false) (hb : g.bootstrap_ca_cert = false) :
    ¬((stream_ssl_set_ca_cert_file g c).has_ca_cert = true ∧
      (stream_ssl_set_ca_cert_file g c).bootstrap_ca_cert = true) := by
  unfold stream_ssl_set_ca_cert_file
  split_ifs <;> simp [hh, hb]

/- do_ca_cert_bootstrap either leaves the flags alone or performs the
atomic flip. -/
theorem do_ca_cert_bootstrap_cfg (g : ssl_cfg) (e : bootstrap_env) :
    (do_ca_cert_bootstrap g e).2 = g ∨
    (do_ca_cert_bootstrap g e).2 =
      { g with bootstrap_ca_cert := false, has_ca_cert := true } := by
  unfold do_ca_cert_bootstrap
  cases ho : e.open_errno <;> cases hf : e.fdopen_errno <;>
    cases hcl : e.fclose_errno <;> split_ifs <;> simp

/- The handshake-completion event preserves not-both-true. -/
theorem handshake_step_not_both (g : ssl_cfg) (e : bootstrap_env)
    (h : ¬(g.has_ca_cert = true ∧ g.bootstrap_ca_cert = true)) :
    ¬((cfg_step g (cfg_event.handshake_done e)).has_ca_cert = true ∧
      (cfg_step g (cfg_event.handshake_done e)).bootstrap_ca_cert
        = true) := by
  simp only [cfg_step]
  by_cases hb : g.bootstrap_ca_cert = true
  · rw [if_pos hb]
    rcases do_ca_cert_bootstrap_cfg g e with hcfg | hcfg <;> rw [hcfg]
    · exact h
    · simp
  · rw [if_neg hb]
    exact h

/- The central trace invariant: from the unconfigured state, any event
sequence containing at most one call to the CA-cert setter never ends
with both CA flags true. -/
theorem run_cfg_not_both (tr : List cfg_event) :
    ∀ g : ssl_cfg,
    ((g.has_ca_cert = false ∧ g.bootstrap_ca_cert = false ∧
      tr.countP is_set_ca ≤ 1) ∨
     (¬(g.has_ca_cert = true ∧ g.bootstrap_ca_cert = true) ∧
      tr.countP is_set_ca = 0)) →
    ¬((run_cfg g tr).has_ca_cert = true ∧
      (run_cfg g tr).bootstrap_ca_cert = true) := by
  induction tr with
  | nil =>
    intro g h
    rcases h with ⟨hh, _, _⟩ | ⟨hn, _⟩
    · simp [run_cfg, hh]
    · simpa [run_cfg] using hn
  | cons ev rest ih =>
    intro g h
    simp only [run_cfg]
    rcases h with ⟨hh, hb, hc⟩ | ⟨hn, hc⟩
    · cases ev with
      | set_ca c =>
        have hcc : List.countP is_set_ca (cfg_event.set_ca c :: rest)
            = List.countP is_set_ca rest + 1 := by
          simp [List.countP_cons, is_set_ca]
        rw [hcc] at hc
        apply ih
        exact Or.inr ⟨set_ca_cert_from_clean g c hh hb, by omega⟩
      | handshake_done e =>
        have hcc : List.countP is_set_ca (cfg_event.handshake_done e :: rest)
            = List.countP is_set_ca rest := by
          simp [List.countP_cons, is_set_ca]
        rw [hcc] at hc
        have hstep : cfg_step g (cfg_event.handshake_done e) = g := by
          simp [cfg_step, hb]
        rw [hstep]
        exact ih g (Or.inl ⟨hh, hb, hc⟩)
    · cases ev with
      | set_ca c =>
        exfalso
        have hcc : List.countP is_set_ca (cfg_event.set_ca c :: rest)
            = List.countP is_set_ca rest + 1 := by
          simp [List.countP_cons, is_set_ca]
        rw [hcc] at hc
        omega
      | handshake_done e =>
        have hcc : List.countP is_set_ca (cfg_event.handshake_done e :: rest)
            = List.countP is_set_ca rest := by
          simp [List.countP_cons, is_set_ca]
        rw [hcc] at hc
        exact ih _ (Or.inr ⟨handshake_step_not_both g e hn, hc⟩)

/- A two-call trace of the CA-cert setter: first armed for bootstrap
against a missing file, then pointed at a readable certificate file. -/
def both_true_trace : List cfg_event :=
  [cfg_event.set_ca
     { ssl_init_ok := true, bootstrap := true, stat_errno := some ENOENT,
       fopen_errno := none, items := [], load_verify_ok := true },
   cfg_event.set_ca
     { ssl_init_ok := true, bootstrap := false, stat_errno := none,
       fopen_errno := none, items := [some 7], load_verify_ok := true }]

/-- Claim C4 counterexample: after arming bootstrap mode (CA path set
with bootstrap and a missing file) and then calling
stream_ssl_set_ca_cert_file again with a readable certificate file,
has_ca_cert and bootstrap_ca_cert are both true at rest — the setter
never clears the other flag, so the claimed invariant fails. -/
theorem C4_counterexample :
    (run_cfg init_cfg both_true_trace).has_ca_cert = true ∧
    (run_cfg init_cfg both_true_trace).bootstrap_ca_cert = true := by
  constructor <;> rfl

/-- Claim C4 (amended): each stream_ssl_set_ca_cert_file call changes
at most one of has_ca_cert / bootstrap_ca_cert and never clears the
other; a successful bootstrap completion atomically flips
bootstrap_ca_cert true→false and has_ca_cert false→true; consequently,
starting unconfigured, has_ca_cert and bootstrap_ca_cert are never
both true at rest over traces containing at most one
stream_ssl_set_ca_cert_file call (a second call can make both true). -/
theorem C4_flags_amended :
    (∀ (g : ssl_cfg) (c : ca_setter_call),
       (stream_ssl_set_ca_cert_file g c).has_ca_cert = g.has_ca_cert ∨
       (stream_ssl_set_ca_cert_file g c).bootstrap_ca_cert
         = g.bootstrap_ca_cert) ∧
    (∀ (g : ssl_cfg) (e : bootstrap_env),
       g.bootstrap_ca_cert = true → g.has_ca_cert = false →
       e.chain ≠ [] → e.check_issued = 0 → e.open_errno = none →
       e.fdopen_errno = none → e.pem_write_ok = true →
       e.fclose_errno = none →
       (do_ca_cert_bootstrap g e).2.bootstrap_ca_cert = false ∧
       (do_ca_cert_bootstrap g e).2.has_ca_cert = true) ∧
    (∀ tr : List cfg_event, tr.countP is_set_ca ≤ 1 →
       ¬((run_cfg init_cfg tr).has_ca_cert = true ∧
         (run_cfg init_cfg tr).bootstrap_ca_cert = true)) := by
  refine ⟨set_ca_cert_changes_at_most_one, ?_, ?_⟩
  · intro g e _ _ hchain hci ho hf hp hcl
    rw [do_ca_cert_bootstrap_success g e hchain hci ho hf hp hcl]
    exact ⟨rfl, rfl⟩
  · intro tr hc
    exact run_cfg_not_both tr init_cfg (Or.inl ⟨rfl, rfl, hc⟩)

/- The read loop on a file with a parse failure (or empty file): EIO_val,
cleared out-parameters, every previously parsed certificate freed. -/
theorem read_cert_loop_fail :
    ∀ (items : List (Option Nat)) (acc : List Nat),
    (items = [] ∨ (none : Option Nat) ∈ items) →
    read_cert_loop items acc =
      { ret := EIO_val, certs := none, n_certs := 0,
        freed := acc ++ (items.takeWhile fun x => x.isSome).filterMap
          id } := by
  intro items
  induction items with
  | nil =>
    intro acc _
    simp [read_cert_loop]
  | cons x rest ih =>
    intro acc h
    cases x with
    | none =>
      simp [read_cert_loop, List.takeWhile_cons]
    | some c =>
      have hmem : (none : Option Nat) ∈ rest := by
        rcases h with h | h
        · exact absurd h (by simp)
        · simpa using h
      have hrest : rest ≠ [] := by
        intro hr
        rw [hr] at hmem
        simp at hmem
      unfold read_cert_loop
      rw [if_neg hrest, ih (acc ++ [c]) (Or.inr hmem)]
      simp [List.takeWhile_cons]

/- The read loop on a nonempty file where every read parses: success,
all certificates in file order, nothing freed. -/
theorem read_cert_loop_ok :
    ∀ (items : List (Option Nat)) (acc : List Nat),
    items ≠ [] → (none : Option Nat) ∉ items →
    read_cert_loop items acc =
      { ret := 0, certs := some (acc ++ items.filterMap id),
        n_certs := (acc ++ items.filterMap id).length, freed := [] } := by
  intro items
  induction items with
  | nil =>
    intro acc h _
    exact absurd rfl h
  | cons x rest ih =>
    intro acc _ hnm
    cases x with
    | none => simp at hnm
    | some c =>
      by_cases hrest : rest = []
      · subst hrest
        simp [read_cert_loop]
      · unfold read_cert_loop
        rw [if_neg hrest, ih (acc ++ [c]) hrest (by simpa using hnm)]
        simp

/-- Claim C7: read_cert_file is atomic on failure — when the file has
a parse failure (or no certificate at all) it returns EIO_val with the
certs out-parameter null and the count zero, every previously parsed
certificate having been freed; on an all-good file it returns 0 with
the ordered certificate array and its count. -/
theorem C7_read_cert_file_atomic (items : List (Option Nat)) :
    ((items = [] ∨ (none : Option Nat) ∈ items) →
       read_cert_file none items =
         { ret := EIO_val, certs := none, n_certs := 0,
           freed := (items.takeWhile fun x => x.isSome).filterMap id }) ∧
    ((items ≠ [] ∧ (none : Option Nat) ∉ items) →
       read_cert_file none items =
         { ret := 0, certs := some (items.filterMap id),
           n_certs := (items.filterMap id).length, freed := [] }) := by
  constructor
  · intro h
    unfold read_cert_file
    rw [read_cert_loop_fail items [] h]
    simp
  · intro h
    unfold read_cert_file
    rw [read_cert_loop_ok items [] h.1 h.2]
    simp

/-- Claim C9: the claim says the name reported by pssl_open reflects
the (port, address) pair the listening socket is actually bound to; it
does not hold of the code.  pssl_open passes NULL to
inet_open_passive's sockaddr out-parameter and then formats bound_name
from the never-written stack variable sin: evaluated at a successful
open bound to port 6633 / 127.0.0.1 with a zeroed stack, the reported
pair is the stack content, not the bound pair. -/
theorem C9_name_from_unbound_sin :
    pssl_open 0 5 (6633, 2130706433) (0, 0) = Except.ok (0, 0) ∧
    ((0, 0) : Nat × Nat) ≠ (6633, 2130706433) := by
  constructor
  · rfl
  · decide

/- The flag state produced by arming bootstrap alone: CA path set with
bootstrap = true to a file whose stat fails with ENOENT, and nothing
else configured. -/
def bootstrap_only_cfg : ssl_cfg :=
  stream_ssl_set_ca_cert_file init_cfg
    { ssl_init_ok := true, bootstrap := true, stat_errno := some ENOENT,
      fopen_errno := none, items := [], load_verify_ok := true }

/-- Claim C10: stream_ssl_is_configured is true iff at least one of
has_private_key, has_certificate, has_ca_cert is; with only bootstrap
mode armed it is false even though new_ssl_stream's configuration
check accepts an armed bootstrap in place of a CA certificate (the
check only fails once key and certificate are also absent). -/
theorem C10_is_configured :
    (∀ g : ssl_cfg,
       stream_ssl_is_configured g =
         (g.has_private_key || g.has_certificate || g.has_ca_cert)) ∧
    stream_ssl_is_configured bootstrap_only_cfg = false ∧
    bootstrap_only_cfg.bootstrap_ca_cert = true ∧
    new_ssl_stream_cfg_error
      { bootstrap_only_cfg with has_private_key := true,
                                has_certificate := true } true = 0 ∧
    new_ssl_stream_cfg_error
      { init_cfg with has_private_key := true,
                      has_certificate := true } true = ENOPROTOOPT := by
  exact ⟨fun g => rfl, rfl, rfl, rfl, rfl⟩

/- Concrete fixtures used by the witness theorems below. -/

def w_stream : ssl_stream :=
  { state := ssl_state.STATE_SSL_CONNECTING, type := session_type.CLIENT,
    txbuf := none, rx_want := ssl_want.SSL_NOTHING,
    tx_want := ssl_want.SSL_NOTHING, ssl_st := 0 }

def w_stream_buf : ssl_stream :=
  { w_stream with txbuf := some [1, 2] }

def w_call_ok : ssl_call :=
  { ret := 2, err := ssl_error_kind.errNone, post := 0, errnoV := 1,
    queued := 0 }

def w_benv_ok : bootstrap_env :=
  { chain := [5], check_issued := 0, open_errno := none,
    fdopen_errno := none, pem_write_ok := true, fclose_errno := none,
    load_verify_ok := true }

def w_conn_relaxed : connect_call :=
  { completion := 0, ret := 1, err := ssl_error_kind.errNone,
    verify_mode := 0 }

def w_cfg_full : ssl_cfg :=
  { has_private_key := true, has_certificate := true,
    has_ca_cert := true, bootstrap_ca_cert := false }

def w_cfg_boot : ssl_cfg :=
  { init_cfg with bootstrap_ca_cert := true }

/-- Witness for C1 at a concrete stream, call result and n = 1. -/
theorem C1_want_tracking_witness :
    (ssl_recv w_stream w_call_ok 1).isSome = true := by
  obtain ⟨⟨v, s2, hv, _, _⟩, _⟩ :=
    C1_want_tracking w_stream w_call_ok 1 (by decide)
  rw [hv]
  rfl

/-- Witness for C2: a handshake completing with verification relaxed
and bootstrap disarmed is rejected with EPROTO. -/
theorem C2_established_only_verified_witness :
    (ssl_connect w_cfg_full w_stream w_conn_relaxed w_benv_ok).1
      = EPROTO :=
  (C2_established_only_verified w_cfg_full w_stream w_conn_relaxed
      w_benv_ok (fun _ hk => Option.noConfusion hk)
      (fun _ hk => Option.noConfusion hk)
      (fun _ hk => Option.noConfusion hk)).2
    rfl rfl (by decide) rfl

/-- Witness for C3: a fully successful bootstrap still yields EPROTO. -/
theorem C3_bootstrap_always_fails_witness :
    (do_ca_cert_bootstrap w_cfg_boot w_benv_ok).1 = EPROTO :=
  (C3_bootstrap_always_fails w_cfg_boot w_benv_ok
      (fun _ hk => Option.noConfusion hk)
      (fun _ hk => Option.noConfusion hk)
      (fun _ hk => Option.noConfusion hk)).2.1
    (by decide) rfl rfl rfl rfl rfl

/-- Witness for the amended C4 at a concrete one-event trace. -/
theorem C4_flags_amended_witness :
    ¬((run_cfg init_cfg
         [cfg_event.handshake_done w_benv_ok]).has_ca_cert = true ∧
      (run_cfg init_cfg
         [cfg_event.handshake_done w_benv_ok]).bootstrap_ca_cert
        = true) :=
  C4_flags_amended.2.2 [cfg_event.handshake_done w_benv_ok] (by decide)

/-- Witness for C5 at a stream with a buffered payload. -/
theorem C5_single_outbound_payload_witness :
    ssl_send w_stream_buf [9] [] = some (EAGAIN, w_stream_buf) :=
  C5_single_outbound_payload w_stream_buf [1, 2] [9] [] rfl

/-- Witness for C6 at a concrete two-byte send that fully drains. -/
theorem C6_send_outcomes_witness :
    (ssl_do_tx { w_stream with txbuf := some [7, 8] }
       [w_call_ok]).isSome = true := by
  obtain ⟨v1, s1, hdo, _⟩ :=
    C6_send_outcomes w_stream [7, 8] [w_call_ok] 0 w_stream rfl
      (by decide)
      (by
        intro r hr
        rw [List.mem_singleton] at hr
        subst hr
        decide)
      rfl
  rw [hdo]
  rfl

/-- Witness for C7 at a file whose second read fails to parse. -/
theorem C7_read_cert_file_atomic_witness :
    read_cert_file none [some 3, none] =
      { ret := EIO_val, certs := none, n_certs := 0, freed := [3] } := by
  rw [(C7_read_cert_file_atomic [some 3, none]).1 (Or.inr (by simp))]
  rfl

/-- Witness for C8 at n = 1. -/
theorem C8_recv_needs_positive_witness :
    0 < 1 ∧ ssl_recv w_stream w_call_ok 1 ≠ none :=
  ⟨Nat.one_pos, (C8_recv_needs_positive w_stream w_call_ok 1).2 Nat.one_pos⟩

end StreamSsl
